import Mathlib

/-!
Shallow embedding of the risk-scoring and business-impact engine of the
performance-intelligence repository.

JavaScript numbers are modelled as exact rationals (`ℚ`); `Math.round` is
modelled as `⌊x + 1/2⌋` (JS rounds half toward +∞), `Math.min`/`Math.max`
as `min`/`max`.  Source files embedded: `src/lib/riskEngine.ts` and the
`computeRevenueImpact` function of `src/app/api/analyze/route.ts`.
-/

/-- JS `Math.round`: nearest integer, halves toward +∞. -/
def jsRound (x : ℚ) : ℤ := ⌊x + 1/2⌋

/-- `clampScore` from `riskEngine.ts`: clamp to 0–100 then round. -/
def clampScore (value : ℚ) : ℤ := jsRound (max 0 (min 100 value))

/-- `linearRisk` from `riskEngine.ts`: 0 at/below `low`, 100 at/above `high`,
linear in between. -/
def linearRisk (value low high : ℚ) : ℚ :=
  if value ≤ low then 0
  else if high ≤ value then 100
  else (value - low) / (high - low) * 100

/-- `LighthouseMetrics` from `riskEngine.ts` (the spec's MetricSet). -/
structure LighthouseMetrics where
  lcp : ℚ
  cls : ℚ
  inp : ℚ
  tbt : ℚ
  fcp : ℚ
  speedIndex : ℚ
  domSize : ℚ
  mainThreadWork : ℚ
deriving DecidableEq

/-- The weighted combination inside `calculateSpeedRisk`, before clamping. -/
def speedCombined (m : LighthouseMetrics) : ℚ :=
  linearRisk m.lcp 2500 5000 * 0.4 + linearRisk m.tbt 300 600 * 0.35 +
    linearRisk m.speedIndex 3000 6000 * 0.25

/-- `calculateSpeedRisk` from `riskEngine.ts`. -/
def calculateSpeedRisk (m : LighthouseMetrics) : ℤ := clampScore (speedCombined m)

/-- The weighted combination inside `calculateUxRisk`, before clamping. -/
def uxCombined (m : LighthouseMetrics) : ℚ :=
  linearRisk m.cls 0.1 0.25 * 0.4 + linearRisk m.inp 200 500 * 0.35 +
    linearRisk m.tbt 300 600 * 0.25

/-- `calculateUxRisk` from `riskEngine.ts`. -/
def calculateUxRisk (m : LighthouseMetrics) : ℤ := clampScore (uxCombined m)

/-- The weighted combination inside `calculateSeoRisk`, before clamping. -/
def seoCombined (m : LighthouseMetrics) : ℚ :=
  linearRisk m.lcp 2500 5000 * 0.5 + linearRisk m.fcp 1800 3000 * 0.25 +
    linearRisk m.speedIndex 3000 6000 * 0.25

/-- `calculateSeoRisk` from `riskEngine.ts`. -/
def calculateSeoRisk (m : LighthouseMetrics) : ℤ := clampScore (seoCombined m)

/-- The weighted combination inside `calculateConversionRisk`, before clamping. -/
def conversionCombined (m : LighthouseMetrics) : ℚ :=
  linearRisk m.lcp 2500 5000 * 0.35 + linearRisk m.inp 200 500 * 0.35 +
    linearRisk m.tbt 300 600 * 0.3

/-- `calculateConversionRisk` from `riskEngine.ts`. -/
def calculateConversionRisk (m : LighthouseMetrics) : ℤ :=
  clampScore (conversionCombined m)

/-- The weighted combination inside `calculateScalingRisk`, before clamping. -/
def scalingCombined (m : LighthouseMetrics) : ℚ :=
  linearRisk m.domSize 1500 3000 * 0.35 + linearRisk m.mainThreadWork 3000 6000 * 0.35 +
    linearRisk m.tbt 300 600 * 0.3

/-- `calculateScalingRisk` from `riskEngine.ts`. -/
def calculateScalingRisk (m : LighthouseMetrics) : ℤ := clampScore (scalingCombined m)

/-- `calculateOverallHealth` from `riskEngine.ts` (HEALTH_WEIGHTS:
speed .3, ux .25, seo .15, conversion .2, scaling .1). -/
def calculateOverallHealth (speedRisk uxRisk seoRisk conversionRisk scalingRisk : ℚ) : ℤ :=
  clampScore (100 - (speedRisk * 0.3 + uxRisk * 0.25 + seoRisk * 0.15 +
    conversionRisk * 0.2 + scalingRisk * 0.1))

/-- `getRiskLevel` from `riskEngine.ts`. -/
def getRiskLevel (score : ℚ) : String :=
  if score ≤ 39 then "Low"
  else if score ≤ 69 then "Medium"
  else "High"

/-- `priorityFromScore` from `riskEngine.ts`. -/
def priorityFromScore (score : ℚ) : String :=
  if 70 ≤ score then "High"
  else if 40 ≤ score then "Medium"
  else "Low"

/-- All eight metric fields are non-negative. -/
def MetricsNonneg (m : LighthouseMetrics) : Prop :=
  0 ≤ m.lcp ∧ 0 ≤ m.cls ∧ 0 ≤ m.inp ∧ 0 ≤ m.tbt ∧ 0 ≤ m.fcp ∧
    0 ≤ m.speedIndex ∧ 0 ≤ m.domSize ∧ 0 ≤ m.mainThreadWork

instance : DecidablePred MetricsNonneg := fun m => by
  unfold MetricsNonneg; infer_instance

/-- The record of five risk scores consumed by `generateFixPriorities`. -/
structure ScoreSet where
  speedRisk : ℚ
  uxRisk : ℚ
  seoRisk : ℚ
  conversionRisk : ℚ
  scalingRisk : ℚ
deriving DecidableEq

/-- The intermediate category records built inside `generateFixPriorities`
(name, score, weight from FIX_WEIGHTS, and `weightedImpact = score * weight`). -/
structure FixCategory where
  name : String
  score : ℚ
  weight : ℚ
  weightedImpact : ℚ
deriving DecidableEq

/-- One output entry of `generateFixPriorities`. -/
structure FixPriority where
  category : String
  score : ℚ
  priority : String
deriving DecidableEq

/-- The five category records of `generateFixPriorities`, in source order,
with FIX_WEIGHTS speed .3, ux .25, seo .15, conversion .2, scaling .1. -/
def fixCategories (s : ScoreSet) : List FixCategory :=
  [⟨"speed", s.speedRisk, 0.3, s.speedRisk * 0.3⟩,
   ⟨"ux", s.uxRisk, 0.25, s.uxRisk * 0.25⟩,
   ⟨"seo", s.seoRisk, 0.15, s.seoRisk * 0.15⟩,
   ⟨"conversion", s.conversionRisk, 0.2, s.conversionRisk * 0.2⟩,
   ⟨"scaling", s.scalingRisk, 0.1, s.scalingRisk * 0.1⟩]

/-- Stable insertion for a descending sort on `weightedImpact`: the inserted
element goes after every already-placed element whose impact is at least as
large (JS `Array.prototype.sort` is stable per ECMA-262, and the source sorts
with comparator `(a, b) => b.weightedImpact - a.weightedImpact`). -/
def insertDesc (x : FixCategory) : List FixCategory → List FixCategory
  | [] => [x]
  | y :: ys =>
    if x.weightedImpact ≤ y.weightedImpact then y :: insertDesc x ys
    else x :: y :: ys

/-- Stable descending sort on `weightedImpact` (insertion sort, left to right). -/
def sortDesc (l : List FixCategory) : List FixCategory :=
  l.foldl (fun acc x => insertDesc x acc) []

/-- `generateFixPriorities` from `riskEngine.ts`: stable-sort the five
categories by descending weighted impact, take the first 3, and label each
taken score via `priorityFromScore`. -/
def generateFixPriorities (s : ScoreSet) : List FixPriority :=
  ((sortDesc (fixCategories s)).take 3).map fun c =>
    ⟨c.name, c.score, priorityFromScore c.score⟩

/-- FIX_WEIGHTS as a function of the category name. -/
def catWeight (n : String) : ℚ :=
  if n = "speed" then 0.3
  else if n = "ux" then 0.25
  else if n = "seo" then 0.15
  else if n = "conversion" then 0.2
  else if n = "scaling" then 0.1
  else 0

/-- Position of a category name in the fixed source order
[speed, ux, seo, conversion, scaling]. -/
def catIndex (n : String) : ℕ :=
  if n = "speed" then 0
  else if n = "ux" then 1
  else if n = "seo" then 2
  else if n = "conversion" then 3
  else if n = "scaling" then 4
  else 5

/-- The order produced by the stable descending sort: strictly larger
weighted impact first, ties broken by the original category order. -/
def FixOrder (a b : FixCategory) : Prop :=
  b.weightedImpact < a.weightedImpact ∨
    (a.weightedImpact = b.weightedImpact ∧ catIndex a.name < catIndex b.name)

/-- `RevenueImpactInputs` from `route.ts` (`inpMs` is nullable). -/
structure RevenueImpactInputs where
  lcpSeconds : ℚ
  cls : ℚ
  inpMs : Option ℚ
  mobilePerformanceScore : ℚ
  fieldDataAvailable : Bool
  poorCWVCount : ℚ
deriving DecidableEq

/-- The four driver severity labels of the detailed revenue model. -/
structure RiskDrivers where
  lcpImpact : String
  clsImpact : String
  inpImpact : String
  mobileImpact : String
deriving DecidableEq

/-- The output record of `computeRevenueImpact`. -/
structure RevenueImpact where
  minMonthlyLoss : ℤ
  maxMonthlyLoss : ℤ
  minAnnualLoss : ℤ
  maxAnnualLoss : ℤ
  recoveryPotentialMin : ℤ
  recoveryPotentialMax : ℤ
  confidenceScore : ℚ
  confidenceLabel : String
  industryUsed : String
  riskDrivers : RiskDrivers
deriving DecidableEq

/-- `INDUSTRY_MULTIPLIER` from `route.ts`, as a partial lookup. -/
def industryMultiplier (industry : String) : Option ℚ :=
  if industry = "ecommerce" then some 1.2
  else if industry = "finance" then some 1.3
  else if industry = "saas" then some 1.0
  else if industry = "healthcare" then some 0.9
  else if industry = "general" then some 1.0
  else none

/-- The multiplier actually used: table value, or 1.0 for an unknown key
(source: `INDUSTRY_MULTIPLIER[industry] ?? 1.0`). -/
def multiplierUsed (industry : String) : ℚ := (industryMultiplier industry).getD 1

/-- `minDrop` after the four additive threshold ladders of `route.ts`. -/
def dropMinRaw (i : RevenueImpactInputs) : ℚ :=
  (if 4 < i.lcpSeconds then 0.25
    else if 3 < i.lcpSeconds then 0.2
    else if 2.5 < i.lcpSeconds then 0.1 else 0) +
  (if 0.25 < i.cls then 0.1 else if 0.1 < i.cls then 0.05 else 0) +
  (match i.inpMs with
    | some v => if 500 < v then 0.1 else 0
    | none => 0) +
  (if i.mobilePerformanceScore < 50 then 0.15
    else if i.mobilePerformanceScore < 70 then 0.08 else 0)

/-- `maxDrop` after the four additive threshold ladders of `route.ts`. -/
def dropMaxRaw (i : RevenueImpactInputs) : ℚ :=
  (if 4 < i.lcpSeconds then 0.35
    else if 3 < i.lcpSeconds then 0.3
    else if 2.5 < i.lcpSeconds then 0.15 else 0) +
  (if 0.25 < i.cls then 0.2 else if 0.1 < i.cls then 0.1 else 0) +
  (match i.inpMs with
    | some v => if 500 < v then 0.15 else 0
    | none => 0) +
  (if i.mobilePerformanceScore < 50 then 0.25
    else if i.mobilePerformanceScore < 70 then 0.15 else 0)

/-- `minDrop` after the source's cap `if (minDrop > 0.5) minDrop = 0.5`. -/
def dropMinCapped (i : RevenueImpactInputs) : ℚ :=
  if 0.5 < dropMinRaw i then 0.5 else dropMinRaw i

/-- `maxDrop` after the source's cap `if (maxDrop > 0.6) maxDrop = 0.6`. -/
def dropMaxCapped (i : RevenueImpactInputs) : ℚ :=
  if 0.6 < dropMaxRaw i then 0.6 else dropMaxRaw i

/-- `mobileWeight` from `route.ts`: `Math.min(100, Math.max(0, pct)) / 100`. -/
def mobileWeight (pct : ℚ) : ℚ := min 100 (max 0 pct) / 100

/-- `adjustedMinLoss` from `route.ts`: revenue × capped drop × industry
multiplier × mobile weight, itself capped at the monthly revenue. -/
def adjustedMinLoss (i : RevenueImpactInputs) (monthlyRevenue mobileTrafficPercent : ℚ)
    (industry : String) : ℚ :=
  min (monthlyRevenue * (dropMinCapped i * multiplierUsed industry) *
    mobileWeight mobileTrafficPercent) monthlyRevenue

/-- `adjustedMaxLoss` from `route.ts`, analogous to `adjustedMinLoss`. -/
def adjustedMaxLoss (i : RevenueImpactInputs) (monthlyRevenue mobileTrafficPercent : ℚ)
    (industry : String) : ℚ :=
  min (monthlyRevenue * (dropMaxCapped i * multiplierUsed industry) *
    mobileWeight mobileTrafficPercent) monthlyRevenue

/-- The additive confidence sum of `route.ts`, before the cap at 100. -/
def confidenceRaw (i : RevenueImpactInputs) (mobileTrafficPercent : ℚ) : ℚ :=
  (if i.fieldDataAvailable then 30 else 10) +
  (if 2 ≤ i.poorCWVCount then 25 else if i.poorCWVCount = 1 then 15 else 5) +
  (if 60 ≤ mobileTrafficPercent then 20
    else if 30 ≤ mobileTrafficPercent then 10 else 5) +
  (if 4 < i.lcpSeconds ∨ i.mobilePerformanceScore < 40 then 15 else 10)

/-- The confidence score after the source's cap
`if (confidence > 100) confidence = 100`. -/
def confidenceCapped (i : RevenueImpactInputs) (mobileTrafficPercent : ℚ) : ℚ :=
  if 100 < confidenceRaw i mobileTrafficPercent then 100
  else confidenceRaw i mobileTrafficPercent

/-- `computeRevenueImpact` from `route.ts`. -/
def computeRevenueImpact (inputs : RevenueImpactInputs)
    (monthlyRevenue mobileTrafficPercent : ℚ) (industry : String) : RevenueImpact :=
  { minMonthlyLoss :=
      jsRound (adjustedMinLoss inputs monthlyRevenue mobileTrafficPercent industry)
    maxMonthlyLoss :=
      jsRound (adjustedMaxLoss inputs monthlyRevenue mobileTrafficPercent industry)
    minAnnualLoss :=
      jsRound (adjustedMinLoss inputs monthlyRevenue mobileTrafficPercent industry * 12)
    maxAnnualLoss :=
      jsRound (adjustedMaxLoss inputs monthlyRevenue mobileTrafficPercent industry * 12)
    recoveryPotentialMin :=
      jsRound (adjustedMinLoss inputs monthlyRevenue mobileTrafficPercent industry)
    recoveryPotentialMax :=
      jsRound (adjustedMaxLoss inputs monthlyRevenue mobileTrafficPercent industry)
    confidenceScore := confidenceCapped inputs mobileTrafficPercent
    confidenceLabel :=
      if 75 ≤ confidenceCapped inputs mobileTrafficPercent then "High"
      else if 45 ≤ confidenceCapped inputs mobileTrafficPercent then "Medium"
      else "Low"
    industryUsed := industry
    riskDrivers :=
      { lcpImpact :=
          if 4 < inputs.lcpSeconds then "High"
          else if 3 < inputs.lcpSeconds then "Moderate"
          else if 2.5 < inputs.lcpSeconds then "Low"
          else "None"
        clsImpact :=
          if 0.25 < inputs.cls then "High"
          else if 0.1 < inputs.cls then "Moderate"
          else "Low"
        inpImpact :=
          match inputs.inpMs with
          | some v => if 500 < v then "High" else "Low"
          | none => "Low"
        mobileImpact :=
          if inputs.mobilePerformanceScore < 50 then "High"
          else if inputs.mobilePerformanceScore < 70 then "Moderate"
          else "Low" } }

/-- `linearRisk` at/below the low threshold. -/
theorem linearRisk_of_le {value low : ℚ} (high : ℚ) (h : value ≤ low) :
    linearRisk value low high = 0 := by
  rw [linearRisk, if_pos h]

/-- `linearRisk` at/above the high threshold (for `low < high`). -/
theorem linearRisk_of_ge {value low high : ℚ} (hlh : low < high) (h : high ≤ value) :
    linearRisk value low high = 100 := by
  rw [linearRisk, if_neg (by linarith), if_pos h]

/-- `linearRisk` strictly between the thresholds is strictly between 0 and 100. -/
theorem linearRisk_bounds {value low high : ℚ} (h1 : low < value) (h2 : value < high) :
    0 < linearRisk value low high ∧ linearRisk value low high < 100 := by
  rw [linearRisk, if_neg (by linarith), if_neg (by linarith)]
  constructor
  · exact mul_pos (div_pos (by linarith) (by linarith)) (by norm_num)
  · have : (value - low) / (high - low) < 1 := by
      rw [div_lt_one (by linarith)]; linarith
    nlinarith

/-- C2: `calculateOverallHealth` on the five reference inputs of the spec. -/
theorem c2_overall_health_reference_values :
    calculateOverallHealth 0 0 0 0 0 = 100 ∧
    calculateOverallHealth 100 100 100 100 100 = 0 ∧
    calculateOverallHealth 50 50 50 50 50 = 50 ∧
    calculateOverallHealth 100 0 0 0 0 = 70 ∧
    calculateOverallHealth 40 0 0 0 0 = 88 := by
  refine ⟨?_, ?_, ?_, ?_, ?_⟩ <;>
    norm_num [calculateOverallHealth, clampScore, jsRound]

/-- `jsRound` is monotone. -/
theorem jsRound_mono {x y : ℚ} (h : x ≤ y) : jsRound x ≤ jsRound y :=
  Int.floor_le_floor (by linarith)

/-- `clampScore` is monotone. -/
theorem clampScore_mono {x y : ℚ} (h : x ≤ y) : clampScore x ≤ clampScore y :=
  jsRound_mono (max_le_max le_rfl (min_le_min le_rfl h))

/-- C3: `calculateOverallHealth` is monotone non-increasing in each of its five
risk arguments. -/
theorem c3_overall_health_antitone :
    (∀ a a' b c d e : ℚ, a ≤ a' →
      calculateOverallHealth a' b c d e ≤ calculateOverallHealth a b c d e) ∧
    (∀ a b b' c d e : ℚ, b ≤ b' →
      calculateOverallHealth a b' c d e ≤ calculateOverallHealth a b c d e) ∧
    (∀ a b c c' d e : ℚ, c ≤ c' →
      calculateOverallHealth a b c' d e ≤ calculateOverallHealth a b c d e) ∧
    (∀ a b c d d' e : ℚ, d ≤ d' →
      calculateOverallHealth a b c d' e ≤ calculateOverallHealth a b c d e) ∧
    (∀ a b c d e e' : ℚ, e ≤ e' →
      calculateOverallHealth a b c d e' ≤ calculateOverallHealth a b c d e) := by
  refine ⟨?_, ?_, ?_, ?_, ?_⟩ <;>
    · intro _ _ _ _ _ _ h
      exact clampScore_mono (by nlinarith)

/-- C3 witness: monotonicity instantiated at a concrete input pair. -/
theorem c3_overall_health_antitone_witness :
    calculateOverallHealth 100 0 0 0 0 ≤ calculateOverallHealth 0 0 0 0 0 :=
  c3_overall_health_antitone.1 0 100 0 0 0 0 (by norm_num)

/-- C4: `getRiskLevel` is a total step function: Low for score ≤ 39 (negative
included), Medium on (39, 69], High for score > 69 (above 100 included); with
the four concrete boundary values of the spec. -/
theorem c4_risk_level_step_function :
    (∀ score : ℚ,
      (score ≤ 39 → getRiskLevel score = "Low") ∧
      (39 < score → score ≤ 69 → getRiskLevel score = "Medium") ∧
      (69 < score → getRiskLevel score = "High")) ∧
    getRiskLevel 39 = "Low" ∧ getRiskLevel 40 = "Medium" ∧
    getRiskLevel 69 = "Medium" ∧ getRiskLevel 70 = "High" := by
  refine ⟨fun score => ⟨fun h => ?_, fun h1 h2 => ?_, fun h => ?_⟩, ?_, ?_, ?_, ?_⟩
  · rw [getRiskLevel, if_pos h]
  · rw [getRiskLevel, if_neg (by linarith), if_pos h2]
  · rw [getRiskLevel, if_neg (by linarith), if_neg (by linarith)]
  all_goals norm_num [getRiskLevel]

/-- C4 witness: the step function instantiated at concrete scores, including a
negative score and a score above 100. -/
theorem c4_risk_level_step_function_witness :
    getRiskLevel (-5) = "Low" ∧ getRiskLevel 55 = "Medium" ∧ getRiskLevel 120 = "High" :=
  ⟨(c4_risk_level_step_function.1 (-5)).1 (by norm_num),
   (c4_risk_level_step_function.1 55).2.1 (by norm_num) (by norm_num),
   (c4_risk_level_step_function.1 120).2.2 (by norm_num)⟩

/-- C1 counterexample: at `lcp=2501, tbt=301, speedIndex=3001` (all fields
non-negative, every speed-contributing metric strictly between its thresholds)
the speed risk rounds to 0, so the integer result is not strictly between
0 and 100 as the claim states. -/
theorem c1_risk_boundaries_counterexample :
    MetricsNonneg ⟨2501, 0, 0, 301, 0, 3001, 0, 0⟩ ∧
    ((2500:ℚ) < 2501 ∧ (2501:ℚ) < 5000) ∧ ((300:ℚ) < 301 ∧ (301:ℚ) < 600) ∧
    ((3000:ℚ) < 3001 ∧ (3001:ℚ) < 6000) ∧
    calculateSpeedRisk ⟨2501, 0, 0, 301, 0, 3001, 0, 0⟩ = 0 := by
  refine ⟨⟨?_, ?_, ?_, ?_, ?_, ?_, ?_, ?_⟩, ⟨?_, ?_⟩, ⟨?_, ?_⟩, ⟨?_, ?_⟩, ?_⟩ <;>
    norm_num [calculateSpeedRisk, speedCombined, linearRisk, clampScore, jsRound]

/-- C1 (amended): for each of the five risk functions on a non-negative
MetricSet, the result is 0 when every contributing metric is at or below its
low threshold and exactly 100 when every contributing metric is at or above
its high threshold; when every contributing metric lies strictly between its
thresholds, the weighted combination before rounding is strictly between 0 and
100 (the rounded integer result may still equal 0 or 100 because of
rounding). -/
theorem c1_risk_boundaries_amended (m : LighthouseMetrics) (_hm : MetricsNonneg m) :
    ((m.lcp ≤ 2500 ∧ m.tbt ≤ 300 ∧ m.speedIndex ≤ 3000 → calculateSpeedRisk m = 0) ∧
     (5000 ≤ m.lcp ∧ 600 ≤ m.tbt ∧ 6000 ≤ m.speedIndex → calculateSpeedRisk m = 100) ∧
     (2500 < m.lcp ∧ m.lcp < 5000 ∧ 300 < m.tbt ∧ m.tbt < 600 ∧
        3000 < m.speedIndex ∧ m.speedIndex < 6000 →
      0 < speedCombined m ∧ speedCombined m < 100)) ∧
    ((m.cls ≤ 0.1 ∧ m.inp ≤ 200 ∧ m.tbt ≤ 300 → calculateUxRisk m = 0) ∧
     (0.25 ≤ m.cls ∧ 500 ≤ m.inp ∧ 600 ≤ m.tbt → calculateUxRisk m = 100) ∧
     (0.1 < m.cls ∧ m.cls < 0.25 ∧ 200 < m.inp ∧ m.inp < 500 ∧
        300 < m.tbt ∧ m.tbt < 600 →
      0 < uxCombined m ∧ uxCombined m < 100)) ∧
    ((m.lcp ≤ 2500 ∧ m.fcp ≤ 1800 ∧ m.speedIndex ≤ 3000 → calculateSeoRisk m = 0) ∧
     (5000 ≤ m.lcp ∧ 3000 ≤ m.fcp ∧ 6000 ≤ m.speedIndex → calculateSeoRisk m = 100) ∧
     (2500 < m.lcp ∧ m.lcp < 5000 ∧ 1800 < m.fcp ∧ m.fcp < 3000 ∧
        3000 < m.speedIndex ∧ m.speedIndex < 6000 →
      0 < seoCombined m ∧ seoCombined m < 100)) ∧
    ((m.lcp ≤ 2500 ∧ m.inp ≤ 200 ∧ m.tbt ≤ 300 → calculateConversionRisk m = 0) ∧
     (5000 ≤ m.lcp ∧ 500 ≤ m.inp ∧ 600 ≤ m.tbt → calculateConversionRisk m = 100) ∧
     (2500 < m.lcp ∧ m.lcp < 5000 ∧ 200 < m.inp ∧ m.inp < 500 ∧
        300 < m.tbt ∧ m.tbt < 600 →
      0 < conversionCombined m ∧ conversionCombined m < 100)) ∧
    ((m.domSize ≤ 1500 ∧ m.mainThreadWork ≤ 3000 ∧ m.tbt ≤ 300 →
        calculateScalingRisk m = 0) ∧
     (3000 ≤ m.domSize ∧ 6000 ≤ m.mainThreadWork ∧ 600 ≤ m.tbt →
        calculateScalingRisk m = 100) ∧
     (1500 < m.domSize ∧ m.domSize < 3000 ∧ 3000 < m.mainThreadWork ∧
        m.mainThreadWork < 6000 ∧ 300 < m.tbt ∧ m.tbt < 600 →
      0 < scalingCombined m ∧ scalingCombined m < 100)) := by
  refine ⟨⟨?_, ?_, ?_⟩, ⟨?_, ?_, ?_⟩, ⟨?_, ?_, ?_⟩, ⟨?_, ?_, ?_⟩, ⟨?_, ?_, ?_⟩⟩
  · rintro ⟨h1, h2, h3⟩
    rw [calculateSpeedRisk, speedCombined, linearRisk_of_le _ h1,
      linearRisk_of_le _ h2, linearRisk_of_le _ h3]
    norm_num [clampScore, jsRound]
  · rintro ⟨h1, h2, h3⟩
    rw [calculateSpeedRisk, speedCombined, linearRisk_of_ge (by norm_num) h1,
      linearRisk_of_ge (by norm_num) h2, linearRisk_of_ge (by norm_num) h3]
    norm_num [clampScore, jsRound]
  · rintro ⟨h1, h2, h3, h4, h5, h6⟩
    have b1 := linearRisk_bounds h1 h2
    have b2 := linearRisk_bounds h3 h4
    have b3 := linearRisk_bounds h5 h6
    rw [speedCombined]
    constructor <;> nlinarith [b1.1, b1.2, b2.1, b2.2, b3.1, b3.2]
  · rintro ⟨h1, h2, h3⟩
    rw [calculateUxRisk, uxCombined, linearRisk_of_le _ h1,
      linearRisk_of_le _ h2, linearRisk_of_le _ h3]
    norm_num [clampScore, jsRound]
  · rintro ⟨h1, h2, h3⟩
    rw [calculateUxRisk, uxCombined, linearRisk_of_ge (by norm_num) h1,
      linearRisk_of_ge (by norm_num) h2, linearRisk_of_ge (by norm_num) h3]
    norm_num [clampScore, jsRound]
  · rintro ⟨h1, h2, h3, h4, h5, h6⟩
    have b1 := linearRisk_bounds h1 h2
    have b2 := linearRisk_bounds h3 h4
    have b3 := linearRisk_bounds h5 h6
    rw [uxCombined]
    constructor <;> nlinarith [b1.1, b1.2, b2.1, b2.2, b3.1, b3.2]
  · rintro ⟨h1, h2, h3⟩
    rw [calculateSeoRisk, seoCombined, linearRisk_of_le _ h1,
      linearRisk_of_le _ h2, linearRisk_of_le _ h3]
    norm_num [clampScore, jsRound]
  · rintro ⟨h1, h2, h3⟩
    rw [calculateSeoRisk, seoCombined, linearRisk_of_ge (by norm_num) h1,
      linearRisk_of_ge (by norm_num) h2, linearRisk_of_ge (by norm_num) h3]
    norm_num [clampScore, jsRound]
  · rintro ⟨h1, h2, h3, h4, h5, h6⟩
    have b1 := linearRisk_bounds h1 h2
    have b2 := linearRisk_bounds h3 h4
    have b3 := linearRisk_bounds h5 h6
    rw [seoCombined]
    constructor <;> nlinarith [b1.1, b1.2, b2.1, b2.2, b3.1, b3.2]
  · rintro ⟨h1, h2, h3⟩
    rw [calculateConversionRisk, conversionCombined, linearRisk_of_le _ h1,
      linearRisk_of_le _ h2, linearRisk_of_le _ h3]
    norm_num [clampScore, jsRound]
  · rintro ⟨h1, h2, h3⟩
    rw [calculateConversionRisk, conversionCombined, linearRisk_of_ge (by norm_num) h1,
      linearRisk_of_ge (by norm_num) h2, linearRisk_of_ge (by norm_num) h3]
    norm_num [clampScore, jsRound]
  · rintro ⟨h1, h2, h3, h4, h5, h6⟩
    have b1 := linearRisk_bounds h1 h2
    have b2 := linearRisk_bounds h3 h4
    have b3 := linearRisk_bounds h5 h6
    rw [conversionCombined]
    constructor <;> nlinarith [b1.1, b1.2, b2.1, b2.2, b3.1, b3.2]
  · rintro ⟨h1, h2, h3⟩
    rw [calculateScalingRisk, scalingCombined, linearRisk_of_le _ h1,
      linearRisk_of_le _ h2, linearRisk_of_le _ h3]
    norm_num [clampScore, jsRound]
  · rintro ⟨h1, h2, h3⟩
    rw [calculateScalingRisk, scalingCombined, linearRisk_of_ge (by norm_num) h1,
      linearRisk_of_ge (by norm_num) h2, linearRisk_of_ge (by norm_num) h3]
    norm_num [clampScore, jsRound]
  · rintro ⟨h1, h2, h3, h4, h5, h6⟩
    have b1 := linearRisk_bounds h1 h2
    have b2 := linearRisk_bounds h3 h4
    have b3 := linearRisk_bounds h5 h6
    rw [scalingCombined]
    constructor <;> nlinarith [b1.1, b1.2, b2.1, b2.2, b3.1, b3.2]

/-- C1 witness: the amended theorem instantiated for the speed risk at the
low boundary, the high boundary, and the strictly-between example of the
spec (`lcp=3750, tbt=450, speedIndex=4500`). -/
theorem c1_risk_boundaries_witness :
    calculateSpeedRisk ⟨2500, 0, 0, 300, 0, 3000, 0, 0⟩ = 0 ∧
    calculateSpeedRisk ⟨5000, 0, 0, 600, 0, 6000, 0, 0⟩ = 100 ∧
    (0 < speedCombined ⟨3750, 0, 0, 450, 0, 4500, 0, 0⟩ ∧
      speedCombined ⟨3750, 0, 0, 450, 0, 4500, 0, 0⟩ < 100) :=
  ⟨(c1_risk_boundaries_amended _ (by norm_num [MetricsNonneg])).1.1 (by norm_num),
   (c1_risk_boundaries_amended _ (by norm_num [MetricsNonneg])).1.2.1 (by norm_num),
   (c1_risk_boundaries_amended _ (by norm_num [MetricsNonneg])).1.2.2 (by norm_num)⟩

/-- Membership after a stable insertion. -/
theorem mem_insertDesc {x z : FixCategory} :
    ∀ {l : List FixCategory}, z ∈ insertDesc x l → z = x ∨ z ∈ l := by
  intro l
  induction l with
  | nil =>
    intro h
    simp only [insertDesc, List.mem_singleton] at h
    exact Or.inl h
  | cons y ys ih =>
    intro h
    simp only [insertDesc] at h
    split at h
    · rcases List.mem_cons.mp h with rfl | h2
      · exact Or.inr (List.mem_cons_self _ _)
      · rcases ih h2 with h3 | h3
        · exact Or.inl h3
        · exact Or.inr (List.mem_cons_of_mem _ h3)
    · rcases List.mem_cons.mp h with rfl | h2
      · exact Or.inl rfl
      · exact Or.inr h2

/-- A stable insertion adds exactly one element. -/
theorem length_insertDesc (x : FixCategory) :
    ∀ l : List FixCategory, (insertDesc x l).length = l.length + 1 := by
  intro l
  induction l with
  | nil => rfl
  | cons y ys ih =>
    simp only [insertDesc]
    split
    · simp only [List.length_cons, ih]
    · simp only [List.length_cons]

/-- Inserting an element whose category index is larger than that of every
element of a `FixOrder`-sorted list keeps the list `FixOrder`-sorted. -/
theorem pairwise_insertDesc (x : FixCategory) :
    ∀ {l : List FixCategory}, l.Pairwise FixOrder →
    (∀ y ∈ l, catIndex y.name < catIndex x.name) →
    (insertDesc x l).Pairwise FixOrder := by
  intro l
  induction l with
  | nil =>
    intro _ _
    simp [insertDesc]
  | cons y ys ih =>
    intro hp hidx
    rcases List.pairwise_cons.mp hp with ⟨hy, hys⟩
    simp only [insertDesc]
    split
    · rename_i hle
      refine List.pairwise_cons.mpr ⟨?_, ih hys fun a ha => hidx a (List.mem_cons_of_mem _ ha)⟩
      intro z hz
      rcases mem_insertDesc hz with rfl | hz2
      · rcases lt_or_eq_of_le hle with h | h
        · exact Or.inl h
        · exact Or.inr ⟨h.symm, hidx y (List.mem_cons_self y ys)⟩
      · exact hy z hz2
    · rename_i hgt
      push_neg at hgt
      refine List.pairwise_cons.mpr ⟨?_, hp⟩
      intro z hz
      rcases List.mem_cons.mp hz with rfl | hz2
      · exact Or.inl hgt
      · rcases hy z hz2 with h | h
        · exact Or.inl (lt_trans h hgt)
        · exact Or.inl (by rw [← h.1]; exact hgt)

/-- The stable insertion-sort fold: sortedness, length and membership, for an
input list whose category indices strictly increase. -/
theorem sortDesc_fold_spec :
    ∀ l acc : List FixCategory, acc.Pairwise FixOrder →
    (∀ y ∈ acc, ∀ z ∈ l, catIndex y.name < catIndex z.name) →
    l.Pairwise (fun a b => catIndex a.name < catIndex b.name) →
    (List.foldl (fun acc x => insertDesc x acc) acc l).Pairwise FixOrder ∧
    (List.foldl (fun acc x => insertDesc x acc) acc l).length = acc.length + l.length ∧
    (∀ z ∈ List.foldl (fun acc x => insertDesc x acc) acc l, z ∈ acc ∨ z ∈ l) := by
  intro l
  induction l with
  | nil =>
    intro acc hacc _ _
    exact ⟨hacc, by simp, fun z hz => Or.inl hz⟩
  | cons x xs ih =>
    intro acc hacc hcross hinc
    rcases List.pairwise_cons.mp hinc with ⟨hx, hxs⟩
    simp only [List.foldl_cons]
    have hacc' : (insertDesc x acc).Pairwise FixOrder :=
      pairwise_insertDesc x hacc fun y hy => hcross y hy x (List.mem_cons_self _ _)
    have hcross' : ∀ y ∈ insertDesc x acc, ∀ z ∈ xs, catIndex y.name < catIndex z.name := by
      intro y hy z hz
      rcases mem_insertDesc hy with rfl | hy2
      · exact hx z hz
      · exact hcross y hy2 z (List.mem_cons_of_mem _ hz)
    obtain ⟨h1, h2, h3⟩ := ih (insertDesc x acc) hacc' hcross' hxs
    refine ⟨h1, ?_, ?_⟩
    · rw [h2, length_insertDesc]
      simp only [List.length_cons]
      omega
    · intro z hz
      rcases h3 z hz with hz2 | hz2
      · rcases mem_insertDesc hz2 with rfl | hz3
        · exact Or.inr (List.mem_cons_self _ _)
        · exact Or.inl hz3
      · exact Or.inr (List.mem_cons_of_mem _ hz2)

/-- C5: for every input record of five risk scores, `generateFixPriorities`
returns exactly 3 entries, ordered by descending weighted impact
(score × category weight), ties broken by the fixed category order
[speed, ux, seo, conversion, scaling]. -/
theorem c5_fix_priorities_sorted (s : ScoreSet) :
    (generateFixPriorities s).length = 3 ∧
    (generateFixPriorities s).Pairwise (fun a b =>
      b.score * catWeight b.category < a.score * catWeight a.category ∨
      (a.score * catWeight a.category = b.score * catWeight b.category ∧
        catIndex a.category < catIndex b.category)) := by
  have hinc : (fixCategories s).Pairwise (fun a b => catIndex a.name < catIndex b.name) := by
    simp [fixCategories, List.pairwise_cons, catIndex]
  obtain ⟨hp, hlen, hmem⟩ :=
    sortDesc_fold_spec (fixCategories s) [] List.Pairwise.nil (by simp) hinc
  have hs : sortDesc (fixCategories s) =
      List.foldl (fun acc x => insertDesc x acc) [] (fixCategories s) := rfl
  rw [← hs] at hp hlen hmem
  have hlen5 : (sortDesc (fixCategories s)).length = 5 := by
    rw [hlen]
    simp [fixCategories]
  constructor
  · simp [generateFixPriorities, List.length_take, hlen5]
  · have hkey : ∀ a ∈ sortDesc (fixCategories s),
        a.weightedImpact = a.score * catWeight a.name := by
      intro a ha
      rcases hmem a ha with h | h
      · simp at h
      · simp only [fixCategories, List.mem_cons, List.not_mem_nil, or_false] at h
        rcases h with rfl | rfl | rfl | rfl | rfl <;> simp [catWeight]
    have htake : (List.take 3 (sortDesc (fixCategories s))).Pairwise FixOrder :=
      List.Pairwise.sublist (List.take_sublist 3 _) hp
    have htake_mem : ∀ a ∈ List.take 3 (sortDesc (fixCategories s)),
        a ∈ sortDesc (fixCategories s) := fun a ha => List.take_subset _ _ ha
    rw [generateFixPriorities, List.pairwise_map]
    apply htake.imp_of_mem
    intro a b ha hb hr
    have ka := hkey a (htake_mem a ha)
    have kb := hkey b (htake_mem b hb)
    dsimp only
    rcases hr with h | ⟨h1, h2⟩
    · exact Or.inl (by rw [← ka, ← kb]; exact h)
    · exact Or.inr ⟨by rw [← ka, ← kb]; exact h1, h2⟩

/-- C6 counterexample: with monthly revenue 1.95, full mobile traffic, the
"finance" multiplier and all four severity signals firing, the capped loss
1.521 rounds to 2, which exceeds the monthly revenue — so the claim
`maxMonthlyLoss ≤ monthlyRevenue` fails as stated. -/
theorem c6_loss_cap_counterexample :
    (0 : ℚ) ≤ 39/20 ∧
    ¬(((computeRevenueImpact ⟨5, 0.3, some 600, 30, true, 3⟩ (39/20) 100
        "finance").maxMonthlyLoss : ℚ) ≤ 39/20) := by
  constructor
  · norm_num
  · have hfin : multiplierUsed "finance" = 1.3 := by
      simp [multiplierUsed, industryMultiplier]
    norm_num [computeRevenueImpact, adjustedMaxLoss, dropMaxCapped, dropMaxRaw,
      hfin, mobileWeight, jsRound, min_def, max_def]

/-- C6 (amended): the rounded monthly losses can exceed the monthly revenue
only by the final rounding: each is at most `monthlyRevenue + 1/2`, and when
`monthlyRevenue` is a whole number each is at most `monthlyRevenue`. -/
theorem c6_loss_cap_amended (i : RevenueImpactInputs) (rev mobile : ℚ)
    (ind : String) (_hrev : 0 ≤ rev) :
    ((computeRevenueImpact i rev mobile ind).minMonthlyLoss : ℚ) ≤ rev + 1/2 ∧
    ((computeRevenueImpact i rev mobile ind).maxMonthlyLoss : ℚ) ≤ rev + 1/2 ∧
    (∀ n : ℤ, rev = (n : ℚ) →
      ((computeRevenueImpact i rev mobile ind).minMonthlyLoss : ℚ) ≤ rev ∧
      ((computeRevenueImpact i rev mobile ind).maxMonthlyLoss : ℚ) ≤ rev) := by
  have hminA : adjustedMinLoss i rev mobile ind ≤ rev := min_le_right _ _
  have hmaxA : adjustedMaxLoss i rev mobile ind ≤ rev := min_le_right _ _
  have key1 : ∀ x : ℚ, x ≤ rev → ((jsRound x : ℤ) : ℚ) ≤ rev + 1/2 := by
    intro x hx
    calc ((jsRound x : ℤ) : ℚ) ≤ x + 1/2 := Int.floor_le _
    _ ≤ rev + 1/2 := by linarith
  have key2 : ∀ (x : ℚ) (n : ℤ), x ≤ (n : ℚ) → ((jsRound x : ℤ) : ℚ) ≤ (n : ℚ) := by
    intro x n hx
    have h1 : jsRound x ≤ n := by
      rw [jsRound]
      have h2 : ⌊x + 1/2⌋ ≤ ⌊(n : ℚ) + 1/2⌋ := Int.floor_le_floor (by linarith)
      have h3 : ⌊(n : ℚ) + 1/2⌋ = ⌊(1/2 : ℚ)⌋ + n := by
        rw [add_comm, Int.floor_add_int]
      have h4 : ⌊(1/2 : ℚ)⌋ = 0 := by norm_num
      omega
    exact_mod_cast h1
  exact ⟨key1 _ hminA, key1 _ hmaxA,
    fun n hn => ⟨hn ▸ key2 _ n (hn ▸ hminA), hn ▸ key2 _ n (hn ▸ hmaxA)⟩⟩

/-- C6 witness: the amended cap instantiated at a whole-number revenue. -/
theorem c6_loss_cap_witness :
    ((computeRevenueImpact ⟨5, 0.3, some 600, 30, true, 3⟩ 1000 100
        "finance").minMonthlyLoss : ℚ) ≤ 1000 ∧
    ((computeRevenueImpact ⟨5, 0.3, some 600, 30, true, 3⟩ 1000 100
        "finance").maxMonthlyLoss : ℚ) ≤ 1000 :=
  (c6_loss_cap_amended _ 1000 100 "finance" (by norm_num)).2.2 1000 (by norm_num)

/-- C7: the recovery-potential range of `computeRevenueImpact` equals the
monthly loss range exactly, for every input. -/
theorem c7_recovery_equals_loss (i : RevenueImpactInputs) (rev mobile : ℚ)
    (ind : String) :
    (computeRevenueImpact i rev mobile ind).recoveryPotentialMin =
      (computeRevenueImpact i rev mobile ind).minMonthlyLoss ∧
    (computeRevenueImpact i rev mobile ind).recoveryPotentialMax =
      (computeRevenueImpact i rev mobile ind).maxMonthlyLoss :=
  ⟨rfl, rfl⟩

/-- C8 counterexample: "crypto" is absent from the multiplier table, yet the
output is not identical to the "general" output — the `industryUsed` field
echoes the unknown key. -/
theorem c8_unknown_industry_counterexample :
    industryMultiplier "crypto" = none ∧
    computeRevenueImpact ⟨0, 0, none, 100, false, 0⟩ 100 50 "crypto" ≠
      computeRevenueImpact ⟨0, 0, none, 100, false, 0⟩ 100 50 "general" := by
  constructor
  · simp [industryMultiplier]
  · intro h
    have h2 := congrArg RevenueImpact.industryUsed h
    simp only [computeRevenueImpact] at h2
    exact absurd h2 (by decide)

/-- C8 (amended): for an industry key absent from the multiplier table, every
output field of `computeRevenueImpact` coincides with the output for
"general" except `industryUsed`, which echoes the unknown key; the unknown
key silently gets multiplier 1.0 and no error is signaled. -/
theorem c8_unknown_industry_amended (i : RevenueImpactInputs) (rev mobile : ℚ)
    (key : String) (hkey : industryMultiplier key = none) :
    (computeRevenueImpact i rev mobile key).minMonthlyLoss =
      (computeRevenueImpact i rev mobile "general").minMonthlyLoss ∧
    (computeRevenueImpact i rev mobile key).maxMonthlyLoss =
      (computeRevenueImpact i rev mobile "general").maxMonthlyLoss ∧
    (computeRevenueImpact i rev mobile key).minAnnualLoss =
      (computeRevenueImpact i rev mobile "general").minAnnualLoss ∧
    (computeRevenueImpact i rev mobile key).maxAnnualLoss =
      (computeRevenueImpact i rev mobile "general").maxAnnualLoss ∧
    (computeRevenueImpact i rev mobile key).recoveryPotentialMin =
      (computeRevenueImpact i rev mobile "general").recoveryPotentialMin ∧
    (computeRevenueImpact i rev mobile key).recoveryPotentialMax =
      (computeRevenueImpact i rev mobile "general").recoveryPotentialMax ∧
    (computeRevenueImpact i rev mobile key).confidenceScore =
      (computeRevenueImpact i rev mobile "general").confidenceScore ∧
    (computeRevenueImpact i rev mobile key).confidenceLabel =
      (computeRevenueImpact i rev mobile "general").confidenceLabel ∧
    (computeRevenueImpact i rev mobile key).riskDrivers =
      (computeRevenueImpact i rev mobile "general").riskDrivers ∧
    (computeRevenueImpact i rev mobile key).industryUsed = key := by
  have hm : multiplierUsed key = multiplierUsed "general" := by
    have hg : industryMultiplier "general" = some 1.0 := by
      simp [industryMultiplier]
    rw [multiplierUsed, multiplierUsed, hkey, hg]
    norm_num [Option.getD]
  refine ⟨?_, ?_, ?_, ?_, ?_, ?_, rfl, rfl, rfl, rfl⟩ <;>
    simp [computeRevenueImpact, adjustedMinLoss, adjustedMaxLoss, hm]

/-- C8 witness: the amended equivalence instantiated at the unknown key
"crypto". -/
theorem c8_unknown_industry_witness :
    (computeRevenueImpact ⟨0, 0, none, 100, false, 0⟩ 100 50 "crypto").minMonthlyLoss =
      (computeRevenueImpact ⟨0, 0, none, 100, false, 0⟩ 100 50
        "general").minMonthlyLoss :=
  (c8_unknown_industry_amended _ 100 50 "crypto" (by simp [industryMultiplier])).1

/-- C9: the confidence score is the sum of the four additive components
capped at 100, hence lies in [0, 100], and the confidence label is High at
score ≥ 75, Medium at ≥ 45, else Low. -/
theorem c9_confidence_score_and_label (i : RevenueImpactInputs) (rev mobile : ℚ)
    (ind : String) :
    (computeRevenueImpact i rev mobile ind).confidenceScore =
      min 100
        ((if i.fieldDataAvailable then 30 else 10) +
         (if 2 ≤ i.poorCWVCount then 25 else if i.poorCWVCount = 1 then 15 else 5) +
         (if 60 ≤ mobile then 20 else if 30 ≤ mobile then 10 else 5) +
         (if 4 < i.lcpSeconds ∨ i.mobilePerformanceScore < 40 then 15 else 10)) ∧
    0 ≤ (computeRevenueImpact i rev mobile ind).confidenceScore ∧
    (computeRevenueImpact i rev mobile ind).confidenceScore ≤ 100 ∧
    (computeRevenueImpact i rev mobile ind).confidenceLabel =
      (if 75 ≤ (computeRevenueImpact i rev mobile ind).confidenceScore then "High"
       else if 45 ≤ (computeRevenueImpact i rev mobile ind).confidenceScore then "Medium"
       else "Low") := by
  have hraw_lb : 30 ≤ confidenceRaw i mobile := by
    rw [confidenceRaw]
    split_ifs <;> norm_num
  have hraw_ub : confidenceRaw i mobile ≤ 90 := by
    rw [confidenceRaw]
    split_ifs <;> norm_num
  have hcap : confidenceCapped i mobile = confidenceRaw i mobile := by
    rw [confidenceCapped, if_neg (by linarith)]
  have hmin : confidenceCapped i mobile = min 100 (confidenceRaw i mobile) := by
    rw [hcap, min_eq_right (by linarith)]
  have e0 : (computeRevenueImpact i rev mobile ind).confidenceScore =
      confidenceCapped i mobile := rfl
  refine ⟨hmin, ?_, ?_, rfl⟩
  · rw [e0, hcap]
    linarith
  · rw [e0, hcap]
    linarith

/-- C10: on integer scores, `priorityFromScore` and `getRiskLevel` return the
same label; the two functions can disagree only on non-integer scores inside
the open gaps (39, 40) and (69, 70). -/
theorem c10_priority_matches_risk_level :
    (∀ n : ℤ, priorityFromScore (n : ℚ) = getRiskLevel (n : ℚ)) ∧
    (∀ s : ℚ, priorityFromScore s ≠ getRiskLevel s →
      (39 < s ∧ s < 40) ∨ (69 < s ∧ s < 70)) := by
  constructor
  · intro n
    rcases le_or_lt (n : ℚ) 39 with h | h
    · rw [priorityFromScore, if_neg (by linarith), if_neg (by linarith),
        getRiskLevel, if_pos h]
    · rcases le_or_lt (n : ℚ) 69 with h2 | h2
      · have hn : 40 ≤ n := by
          have h3 : (39 : ℤ) < n := by exact_mod_cast h
          omega
        have h40 : (40 : ℚ) ≤ (n : ℚ) := by exact_mod_cast hn
        rw [priorityFromScore, if_neg (by linarith), if_pos h40,
          getRiskLevel, if_neg (by linarith), if_pos h2]
      · have hn : 70 ≤ n := by
          have h3 : (69 : ℤ) < n := by exact_mod_cast h2
          omega
        have h70 : (70 : ℚ) ≤ (n : ℚ) := by exact_mod_cast hn
        rw [priorityFromScore, if_pos h70,
          getRiskLevel, if_neg (by linarith), if_neg (by linarith)]
  · intro s hne
    by_contra hno
    push_neg at hno
    obtain ⟨h1, h2⟩ := hno
    apply hne
    rcases le_or_lt s 39 with h | h
    · rw [priorityFromScore, if_neg (by linarith), if_neg (by linarith),
        getRiskLevel, if_pos h]
    · have h40 : 40 ≤ s := h1 h
      rcases le_or_lt s 69 with h3 | h3
      · rw [priorityFromScore, if_neg (by linarith), if_pos h40,
          getRiskLevel, if_neg (by linarith), if_pos h3]
      · have h70 : 70 ≤ s := h2 h3
        rw [priorityFromScore, if_pos h70,
          getRiskLevel, if_neg (by linarith), if_neg (by linarith)]

/-- C10 witness: at the non-integer score 39.5 the two label functions
disagree, and the theorem places 39.5 in one of the two open gaps. -/
theorem c10_priority_matches_risk_level_witness :
    (39 < (79/2 : ℚ) ∧ (79/2 : ℚ) < 40) ∨ (69 < (79/2 : ℚ) ∧ (79/2 : ℚ) < 70) :=
  c10_priority_matches_risk_level.2 (79/2)
    (by norm_num [priorityFromScore, getRiskLevel]; decide)
